import Mathlib

/-!
Verification of the flash-sale coupon system (Go/Gin/gorm/PostgreSQL).

The development shallowly embeds the repository's handlers
(`CreateCoupon`, `ClaimCoupon`, `GetCouponDetails` in
internal/handlers/coupon.go) and its data model
(internal/models/coupon.go) as pure Lean functions over an explicit
database state, and additionally gives a small-step interleaving
semantics for concurrent `ClaimCoupon` transactions running against a
READ COMMITTED store, as required by the spec's Ledger contract (§4.1):
each read statement of a transaction sees the latest committed data, a
transaction's insert becomes visible to others at commit, and the
store's unique index on (user_id, coupon_name) rejects an insert whose
key is already committed.
-/

namespace FlashSale

/-- models.Coupon: `Name` (unique index) and `Amount` (Go `int`, the total
stock). `ID` and the gorm timestamps play no role in the handlers' logic
and are omitted; no code path soft-deletes rows, so `DeletedAt` is always
null and gorm's soft-delete filtering is the identity. -/
structure Coupon where
  name : String
  amount : Int
deriving DecidableEq

/-- models.Claim: `UserID` and `CouponName`, jointly covered by the unique
index `idx_user_coupon`. -/
structure Claim where
  userID : String
  couponName : String
deriving DecidableEq

/-- The committed database state: the `coupons` and `claims` tables, each a
list of rows in insertion (creation) order. -/
structure DB where
  coupons : List Coupon
  claims : List Claim
deriving DecidableEq

/-- `tx.Where("name = ?", name).First(&coupon)`: point lookup of a coupon
by name (gorm `First` returns the first matching row). -/
def findCoupon (db : DB) (name : String) : Option Coupon :=
  db.coupons.find? (fun c => c.name == name)

/-- `tx.Where("user_id = ? AND coupon_name = ?", ...).First(&existingClaim)`:
point lookup of a claim by its compound key. -/
def findClaim (db : DB) (userID couponName : String) : Option Claim :=
  db.claims.find? (fun cl => cl.userID == userID && cl.couponName == couponName)

/-- `tx.Model(&models.Claim{}).Where("coupon_name = ?", ...).Count(&claimCount)`:
the number of committed claims for a coupon. -/
def claimCount (db : DB) (couponName : String) : Nat :=
  (db.claims.filter (fun cl => cl.couponName == couponName)).length

/-- The unique index `idx_user_coupon` on (user_id, coupon_name): an insert
of `cl` violates it exactly when a committed row with the same compound key
exists. -/
def violatesUnique (db : DB) (cl : Claim) : Bool :=
  db.claims.any (fun c => c.userID == cl.userID && c.couponName == cl.couponName)

/-- A Go `error` value returned by the store driver: either a
`*pq.Error` carrying a PostgreSQL error code, or any other error
exposing only its message. -/
inductive GoErr where
  | pqError (code : String) (msg : String)
  | otherErr (msg : String)
deriving DecidableEq

/-- `err.Error()`. -/
def GoErr.message : GoErr → String
  | .pqError _ m => m
  | .otherErr m => m

/-- Occurrence of `sub` as a contiguous sublist of `l`
(`strings.Contains` on the underlying characters). -/
def listContains (l sub : List Char) : Bool :=
  match l with
  | [] => sub.isEmpty
  | _ :: t => sub.isPrefixOf (l) || listContains t sub

/-- `strings.Contains s sub`. -/
def strContains (s sub : String) : Bool :=
  listContains s.data sub.data

/-- `strings.ToLower`, character by character (all the error messages the
fallback scans are ASCII, where Go lowercasing is `Char.toLower`). -/
def strToLower (s : String) : String :=
  ⟨s.data.map Char.toLower⟩

/-- isUniqueConstraintError (coupon.go): a `*pq.Error` is a uniqueness
violation iff its code is "23505"; any other error falls back to a
case-insensitive message scan for "unique constraint", "duplicate key" or
"idx_user_coupon". (The Go function's `err == nil` guard is handled at
the call sites, which only pass non-nil errors.) -/
def isUniqueConstraintError : GoErr → Bool
  | .pqError code _ => code == "23505"
  | .otherErr msg =>
    let m := strToLower msg
    strContains m "unique constraint" || strContains m "duplicate key" ||
      strContains m "idx_user_coupon"

/-- The error value a transaction body returns: a `*ClaimError` with its
message and HTTP status code, or a raw store error propagated unchanged. -/
inductive TxErr where
  | claimError (message : String) (statusCode : Nat)
  | dbErr (e : GoErr)
deriving DecidableEq

/-- An HTTP response: status code and (abstracted) body. A 200/201 success
has an empty body; an error response carries its message. -/
structure HttpResp where
  status : Nat
  body : String
deriving DecidableEq

/-- The body of the `ClaimCoupon` transaction (coupon.go), run
sequentially against state `db`. `insertFault` injects the outcome of the
final `tx.Create(&claim)` statement: `none` means the insert succeeds,
`some e` means the store rejected it with error `e` (as happens when a
concurrent transaction committed the same key first, or on an
infrastructure failure). Returns the transaction's error (`none` =
success) together with the state as of the end of the body. -/
def claimTxBody (db : DB) (userID couponName : String)
    (insertFault : Option GoErr) : Option TxErr × DB :=
  match findCoupon db couponName with
  | none => (some (.claimError "Coupon not found" 404), db)
  | some coupon =>
    match findClaim db userID couponName with
    | some _ =>
      (some (.claimError "User has already claimed this coupon" 409), db)
    | none =>
      if (claimCount db couponName : Int) ≥ coupon.amount then
        (some (.claimError "Coupon stock exhausted" 400), db)
      else
        match insertFault with
        | some e =>
          if isUniqueConstraintError e then
            (some (.claimError "User has already claimed this coupon" 409), db)
          else
            (some (.dbErr e), db)
        | none =>
          (none, { db with claims := db.claims ++ [⟨userID, couponName⟩] })

/-- gorm's `db.Transaction`: run the body; commit its state on `nil`
error, roll back to the original state on any error. -/
def runTransaction (db : DB) (body : DB → Option TxErr × DB) :
    Option TxErr × DB :=
  match body db with
  | (some e, _) => (some e, db)
  | (none, db') => (none, db')

/-- `ClaimCoupon`'s transactional core: the body wrapped in
`db.Transaction`. -/
def claimCoupon (db : DB) (userID couponName : String)
    (insertFault : Option GoErr) : Option TxErr × DB :=
  runTransaction db (fun txdb => claimTxBody txdb userID couponName insertFault)

/-- The response mapping after the transaction (coupon.go lines following
the `Transaction` call): success → 200 empty body; a `*ClaimError` → its
own status and message; any other error → 500 with the wrapped message. -/
def claimCouponRespond : Option TxErr → HttpResp
  | none => ⟨200, ""⟩
  | some (.claimError m s) => ⟨s, m⟩
  | some (.dbErr e) => ⟨500, "Failed to claim coupon: " ++ e.message⟩

/-- The full `ClaimCoupon` handler on a well-formed request: transaction
plus response mapping, returning the response and the resulting state. -/
def claimCouponHandler (db : DB) (userID couponName : String)
    (insertFault : Option GoErr) : HttpResp × DB :=
  let r := claimCoupon db userID couponName insertFault
  (claimCouponRespond r.1, r.2)

/-! ### CreateCoupon -/

/-- Outcome of gin's `ShouldBindJSON` validation of `CreateCouponRequest`
(tags `binding:"required"` on Name, `binding:"required,min=0"` on Amount,
go-playground/validator semantics): `required` fails on the field type's
zero value — the empty string for `Name`, the integer 0 for `Amount` —
and `min=0` fails on a negative Amount. -/
def createCouponBindingOk (name : String) (amount : Int) : Bool :=
  name != "" && amount != 0 && decide (0 ≤ amount)

/-- `CreateCoupon` (coupon.go) on a syntactically well-formed JSON body:
binding failure → 400 with the validator's message; then `db.Create`,
whose error (a uniqueness violation on the coupons name index when the
name already exists, or an injected infrastructure fault `storeFault`) is
mapped — whatever it is — to 400 "Failed to create coupon: ..."; success
inserts the row and answers 201. -/
def createCoupon (db : DB) (name : String) (amount : Int)
    (storeFault : Option GoErr) : HttpResp × DB :=
  if createCouponBindingOk name amount then
    let createErr : Option GoErr :=
      match storeFault with
      | some e => some e
      | none =>
        if (findCoupon db name).isSome then
          some (.pqError "23505"
            "duplicate key value violates unique constraint")
        else
          none
    match createErr with
    | some e => (⟨400, "Failed to create coupon: " ++ e.message⟩, db)
    | none => (⟨201, ""⟩, { db with coupons := db.coupons ++ [⟨name, amount⟩] })
  else
    (⟨400, "binding: validation failed"⟩, db)

/-! ### GetCouponDetails -/

/-- A Go slice of α: either the nil slice (which gin serializes as JSON
`null`) or a non-nil slice holding a list of elements (serialized as a
JSON array, `[]` when empty). -/
inductive GoSlice (α : Type) where
  | nilSlice
  | mk (elems : List α)
deriving DecidableEq

/-- Go's `append` on a slice value: appending to the nil slice allocates. -/
def GoSlice.push {α : Type} : GoSlice α → α → GoSlice α
  | .nilSlice, x => .mk [x]
  | .mk l, x => .mk (l ++ [x])

/-- models.CouponResponse. -/
structure CouponResponse where
  name : String
  amount : Int
  remainingAmount : Int
  claimedBy : GoSlice String
deriving DecidableEq

/-- Result of `GetCouponDetails`: an error response or a 200 with the
JSON-encoded `CouponResponse`. -/
inductive GetResult where
  | errResp (r : HttpResp)
  | ok (r : CouponResponse)
deriving DecidableEq

/-- What `h.db.Where("coupon_name = ?", name).Find(&claims)` may yield:
the query has no ORDER BY, so the store returns the matching committed
rows in an unspecified order — `found` is any permutation of the
coupon's claims. -/
def FindResult (db : DB) (couponName : String) (found : List Claim) : Prop :=
  List.Perm found (db.claims.filter (fun cl => cl.couponName == couponName))

instance (db : DB) (couponName : String) (found : List Claim) :
    Decidable (FindResult db couponName found) := by
  unfold FindResult
  infer_instance

/-- `GetCouponDetails` (coupon.go): find the coupon (absent → 404
"Coupon not found"); `Find` the coupon's claims, the store handing back
the row list `found` in its own order (constrained by `FindResult` — the
SQL has no ORDER BY); build `claimedBy` by appending each returned
claim's user id to `make([]string, 0, _)` (a non-nil empty slice);
compute `remaining = amount - len(claims)` clamped below at 0. -/
def getCouponDetails (db : DB) (couponName : String)
    (found : List Claim) : GetResult :=
  match findCoupon db couponName with
  | none => .errResp ⟨404, "Coupon not found"⟩
  | some coupon =>
    let claimedBy := found.foldl (fun acc cl => acc.push cl.userID)
      (GoSlice.mk [])
    let rawRemaining := coupon.amount - found.length
    let remaining := if rawRemaining < 0 then 0 else rawRemaining
    .ok ⟨coupon.name, coupon.amount, remaining, claimedBy⟩

/-! ### Concurrent ClaimCoupon transactions

Each HTTP request runs the `ClaimCoupon` transaction on its own worker.
The store executes them under READ COMMITTED (PostgreSQL's default, the
isolation floor of the spec's Ledger contract §4.1): every SQL statement
of a transaction reads the latest committed state, a transaction's
insert becomes visible to others only at commit, and the unique index
`idx_user_coupon` rejects an insert whose compound key is already
committed. The transaction body issues four store statements; the phase
of an in-flight transaction records which statement runs next together
with the data already read into Go locals. The insert is the body's last
statement and its only write, so insert-and-commit is modelled as one
atomic step, and a transaction that aborts before its insert has written
nothing, making rollback a no-op. -/

/-- Program counter of one in-flight `ClaimCoupon` transaction: the next
store statement to run, carrying the Go locals read so far (`coupon`
after the first lookup, the claim count after the `Count`). -/
inductive TxPhase where
  | start
  | readClaim (coupon : Coupon)
  | readCount (coupon : Coupon)
  | insertClaim (coupon : Coupon) (cnt : Nat)
  | done (outcome : Option TxErr)
deriving DecidableEq

/-- One in-flight `ClaimCoupon` request: its parameters and phase. -/
structure Txn where
  userID : String
  couponName : String
  phase : TxPhase
deriving DecidableEq

/-- The whole system: the committed store state plus the in-flight
transactions (one per concurrent request). -/
structure Sys where
  db : DB
  txns : List Txn
deriving DecidableEq

/-- Run the next statement of transaction `t` against the committed state
`db`, per the `ClaimCoupon` body: coupon lookup (absent → abort 404),
prior-claim lookup (found → abort 409), claim count, then the
stock check on the locals followed by the insert — rejected by the
unique index → abort 409 via isUniqueConstraintError, otherwise insert
and commit atomically. Returns the new committed state and the advanced
transaction. -/
def stepTxn (db : DB) (t : Txn) : DB × Txn :=
  match t.phase with
  | .start =>
    match findCoupon db t.couponName with
    | none =>
      (db, { t with phase := .done (some (.claimError "Coupon not found" 404)) })
    | some c => (db, { t with phase := .readClaim c })
  | .readClaim c =>
    match findClaim db t.userID t.couponName with
    | some _ =>
      (db, { t with phase := (TxPhase.done
        (some (.claimError "User has already claimed this coupon" 409))) })
    | none => (db, { t with phase := .readCount c })
  | .readCount c =>
    (db, { t with phase := .insertClaim c (claimCount db t.couponName) })
  | .insertClaim c cnt =>
    if (cnt : Int) ≥ c.amount then
      (db, { t with phase := (TxPhase.done
        (some (.claimError "Coupon stock exhausted" 400))) })
    else if violatesUnique db ⟨t.userID, t.couponName⟩ then
      (db, { t with phase := (TxPhase.done
        (some (.claimError "User has already claimed this coupon" 409))) })
    else
      ({ db with claims := db.claims ++ [⟨t.userID, t.couponName⟩] },
       { t with phase := .done none })
  | .done _ => (db, t)

/-- Scheduler step: advance the transaction at index `i` by one statement
(no-op on an out-of-range index). -/
def step (s : Sys) (i : Nat) : Sys :=
  match s.txns[i]? with
  | none => s
  | some t =>
    let r := stepTxn s.db t
    { db := r.1, txns := s.txns.set i r.2 }

/-- Run a whole schedule: an arbitrary interleaving of the concurrent
transactions' statements, given as the list of transaction indices in
execution order. -/
def run (s : Sys) (sched : List Nat) : Sys :=
  sched.foldl step s

/-- The data-model invariant `idx_user_coupon` enforces: no two claim
rows share the compound key (user_id, coupon_name). -/
def ClaimsKeyUnique (db : DB) : Prop :=
  db.claims.Pairwise (fun a b => ¬(a.userID = b.userID ∧ a.couponName = b.couponName))

instance (db : DB) : Decidable (ClaimsKeyUnique db) := by
  unfold ClaimsKeyUnique
  infer_instance

/-! ### Concrete scenarios -/

/-- Scenario: coupon FLASH_SALE with total stock 1, no claims yet, and two
concurrent claim requests from distinct users. -/
def oversellInit : Sys :=
  ⟨⟨[⟨"FLASH_SALE", 1⟩], []⟩,
   [⟨"user_1", "FLASH_SALE", .start⟩, ⟨"user_2", "FLASH_SALE", .start⟩]⟩

/-- The lock-free interleaving: the two transactions alternate statements,
so both count the committed claims (each seeing 0) before either inserts. -/
def oversellSched : List Nat := [0, 1, 0, 1, 0, 1, 0, 1]

/-- Scenario B of the spec: coupon DOUBLE_DIP with stock 10 and two
concurrent claim requests from the same user. -/
def doubleDipInit : Sys :=
  ⟨⟨[⟨"DOUBLE_DIP", 10⟩], []⟩,
   [⟨"user_12345", "DOUBLE_DIP", .start⟩, ⟨"user_12345", "DOUBLE_DIP", .start⟩]⟩

/-! ### Helper lemmas -/

theorem claimCoupon_coupon_absent (db : DB) (u cn : String)
    (fault : Option GoErr) (h : findCoupon db cn = none) :
    claimCoupon db u cn fault = (some (.claimError "Coupon not found" 404), db) := by
  simp [claimCoupon, runTransaction, claimTxBody, h]

theorem claimCoupon_already_claimed (db : DB) (u cn : String)
    (fault : Option GoErr) (c : Coupon) (hc : findCoupon db cn = some c)
    (cl : Claim) (hcl : findClaim db u cn = some cl) :
    claimCoupon db u cn fault =
      (some (.claimError "User has already claimed this coupon" 409), db) := by
  simp [claimCoupon, runTransaction, claimTxBody, hc, hcl]

theorem claimCoupon_exhausted (db : DB) (u cn : String)
    (fault : Option GoErr) (c : Coupon) (hc : findCoupon db cn = some c)
    (hcl : findClaim db u cn = none)
    (hstock : (claimCount db cn : Int) ≥ c.amount) :
    claimCoupon db u cn fault =
      (some (.claimError "Coupon stock exhausted" 400), db) := by
  simp [claimCoupon, runTransaction, claimTxBody, hc, hcl, hstock]

theorem claimCoupon_success (db : DB) (u cn : String) (c : Coupon)
    (hc : findCoupon db cn = some c) (hcl : findClaim db u cn = none)
    (hstock : (claimCount db cn : Int) < c.amount) :
    claimCoupon db u cn none =
      (none, { db with claims := db.claims ++ [⟨u, cn⟩] }) := by
  have hcond : ¬((claimCount db cn : Int) ≥ c.amount) := not_le.mpr hstock
  simp [claimCoupon, runTransaction, claimTxBody, hc, hcl, hcond]

theorem claimCoupon_insert_fault (db : DB) (u cn : String) (c : Coupon)
    (e : GoErr) (hc : findCoupon db cn = some c)
    (hcl : findClaim db u cn = none)
    (hstock : (claimCount db cn : Int) < c.amount) :
    claimCoupon db u cn (some e) =
      (some (if isUniqueConstraintError e then
          .claimError "User has already claimed this coupon" 409
        else .dbErr e), db) := by
  have hcond : ¬((claimCount db cn : Int) ≥ c.amount) := not_le.mpr hstock
  by_cases hu : isUniqueConstraintError e <;>
    simp [claimCoupon, runTransaction, claimTxBody, hc, hcl, hcond, hu]

theorem foldl_push_mk (cls : List Claim) (l : List String) :
    cls.foldl (fun acc cl => acc.push cl.userID) (GoSlice.mk l) =
      GoSlice.mk (l ++ cls.map Claim.userID) := by
  induction cls generalizing l with
  | nil => simp
  | cons a t ih =>
    show (t.foldl (fun acc cl => acc.push cl.userID)
      (GoSlice.mk (l ++ [a.userID]))) = _
    rw [ih]
    simp

theorem clamp_eq_max (x : Int) : (if x < 0 then 0 else x) = max 0 x := by
  rcases lt_or_le x 0 with h | h
  · simp [h, max_eq_left h.le]
  · simp [not_lt.mpr h, max_eq_right h]

theorem getCouponDetails_found (db : DB) (cn : String) (found : List Claim)
    (c : Coupon) (hc : findCoupon db cn = some c) :
    getCouponDetails db cn found = .ok ⟨c.name, c.amount,
      max 0 (c.amount - (found.length : Int)),
      GoSlice.mk (found.map Claim.userID)⟩ := by
  simp only [getCouponDetails, hc, foldl_push_mk, List.nil_append, clamp_eq_max]

theorem violatesUnique_false_forall {db : DB} {cl : Claim}
    (h : violatesUnique db cl = false) :
    ∀ c ∈ db.claims, ¬(c.userID = cl.userID ∧ c.couponName = cl.couponName) := by
  intro c hc hand
  have : db.claims.any
      (fun d => d.userID == cl.userID && d.couponName == cl.couponName) = true :=
    List.any_eq_true.mpr ⟨c, hc, by simp [hand.1, hand.2]⟩
  rw [violatesUnique] at h
  exact absurd this (by simp [h])

theorem stepTxn_db_cases (db : DB) (t : Txn) :
    (stepTxn db t).1 = db ∨
      ((stepTxn db t).1 =
        { db with claims := db.claims ++ [⟨t.userID, t.couponName⟩] } ∧
       violatesUnique db ⟨t.userID, t.couponName⟩ = false) := by
  cases hp : t.phase with
  | start =>
    cases hfc : findCoupon db t.couponName <;> simp [stepTxn, hp, hfc]
  | readClaim c =>
    cases hfc : findClaim db t.userID t.couponName <;> simp [stepTxn, hp, hfc]
  | readCount c => simp [stepTxn, hp]
  | insertClaim c cnt =>
    by_cases hs : (cnt : Int) ≥ c.amount
    · simp [stepTxn, hp, hs]
    · by_cases hv : violatesUnique db ⟨t.userID, t.couponName⟩ <;>
        simp [stepTxn, hp, hs, hv]
  | done o => simp [stepTxn, hp]

theorem step_db_cases (s : Sys) (i : Nat) :
    (step s i).db = s.db ∨
      ∃ cl, (step s i).db = { s.db with claims := s.db.claims ++ [cl] } ∧
        violatesUnique s.db cl = false := by
  unfold step
  cases hti : s.txns[i]? with
  | none => simp
  | some t =>
    simp only
    rcases stepTxn_db_cases s.db t with h | ⟨h, hv⟩
    · exact Or.inl h
    · exact Or.inr ⟨⟨t.userID, t.couponName⟩, h, hv⟩

theorem step_preserves_unique (s : Sys) (i : Nat)
    (h : ClaimsKeyUnique s.db) : ClaimsKeyUnique (step s i).db := by
  rcases step_db_cases s i with he | ⟨cl, he, hv⟩
  · rw [he]; exact h
  · rw [he]
    unfold ClaimsKeyUnique at h ⊢
    simp only
    rw [List.pairwise_append]
    refine ⟨h, List.pairwise_singleton _ _, ?_⟩
    intro a ha b hb
    rw [List.mem_singleton] at hb
    subst hb
    exact violatesUnique_false_forall hv a ha

theorem step_preserves_coupons (s : Sys) (i : Nat) :
    (step s i).db.coupons = s.db.coupons := by
  rcases step_db_cases s i with he | ⟨cl, he, _⟩ <;> rw [he]

theorem run_preserves_unique (s : Sys) (sched : List Nat)
    (h : ClaimsKeyUnique s.db) : ClaimsKeyUnique (run s sched).db := by
  induction sched generalizing s with
  | nil => exact h
  | cons i r ih => exact ih (step s i) (step_preserves_unique s i h)

theorem run_preserves_coupons (s : Sys) (sched : List Nat) :
    (run s sched).db.coupons = s.db.coupons := by
  induction sched generalizing s with
  | nil => rfl
  | cons i r ih =>
    have hstep : run s (i :: r) = run (step s i) r := rfl
    rw [hstep, ih (step s i), step_preserves_coupons]

theorem claimCoupon_failed_state (db : DB) (u cn : String)
    (fault : Option GoErr) (e : TxErr)
    (h : (claimCoupon db u cn fault).1 = some e) :
    (claimCoupon db u cn fault).2 = db := by
  cases hfc : findCoupon db cn with
  | none => simp [claimCoupon, runTransaction, claimTxBody, hfc]
  | some c =>
    cases hcl : findClaim db u cn with
    | some cl => simp [claimCoupon, runTransaction, claimTxBody, hfc, hcl]
    | none =>
      by_cases hs : (claimCount db cn : Int) ≥ c.amount
      · simp [claimCoupon, runTransaction, claimTxBody, hfc, hcl, hs]
      · cases fault with
        | none =>
          exfalso
          simp [claimCoupon, runTransaction, claimTxBody, hfc, hcl, hs] at h
        | some e2 =>
          by_cases hu : isUniqueConstraintError e2 <;>
            simp [claimCoupon, runTransaction, claimTxBody, hfc, hcl, hs, hu]

theorem claimCoupon_snd_cases (db : DB) (u cn : String) (fault : Option GoErr) :
    (claimCoupon db u cn fault).2 = db ∨
      (claimCoupon db u cn fault).2 =
        { db with claims := db.claims ++ [⟨u, cn⟩] } := by
  cases hfc : findCoupon db cn with
  | none => simp [claimCoupon, runTransaction, claimTxBody, hfc]
  | some c =>
    cases hcl : findClaim db u cn with
    | some cl => simp [claimCoupon, runTransaction, claimTxBody, hfc, hcl]
    | none =>
      by_cases hs : (claimCount db cn : Int) ≥ c.amount
      · simp [claimCoupon, runTransaction, claimTxBody, hfc, hcl, hs]
      · cases fault with
        | none => simp [claimCoupon, runTransaction, claimTxBody, hfc, hcl, hs]
        | some e =>
          by_cases hu : isUniqueConstraintError e <;>
            simp [claimCoupon, runTransaction, claimTxBody, hfc, hcl, hs, hu]

/-! ### Claims -/

/-- C1: the claim says the committed claim count for a coupon with
total_stock = N never exceeds N, even under concurrent attempts. The code
violates it: with coupon FLASH_SALE of stock 1 and two concurrent
claimants, the READ COMMITTED interleaving in which both transactions
count the committed claims before either inserts lets both pass the stock
check and commit — the insert keys differ, so the unique index does not
intervene — leaving 2 committed claims for a stock-1 coupon, with both
requests answered as successes. -/
theorem C1_oversell_at_failing_input :
    findCoupon oversellInit.db "FLASH_SALE" = some ⟨"FLASH_SALE", 1⟩ ∧
    oversellInit.db.claims = [] ∧
    (run oversellInit oversellSched).txns =
      [⟨"user_1", "FLASH_SALE", TxPhase.done none⟩,
       ⟨"user_2", "FLASH_SALE", TxPhase.done none⟩] ∧
    claimCount (run oversellInit oversellSched).db "FLASH_SALE" = 2 := by
  decide

/-- C2: a sequential `ClaimCoupon` attempt decides, in order: coupon
absent → CouponNotFound (404); existing claim by this claimant →
AlreadyClaimed (409), regardless of stock; claim count at or above the
coupon's total stock → StockExhausted (400); otherwise it appends exactly
one new Claim for (claimant, coupon) and succeeds. -/
theorem C2_claim_decision_order (db : DB) (u cn : String) :
    (findCoupon db cn = none →
      claimCoupon db u cn none =
        (some (.claimError "Coupon not found" 404), db)) ∧
    (∀ c cl, findCoupon db cn = some c → findClaim db u cn = some cl →
      claimCoupon db u cn none =
        (some (.claimError "User has already claimed this coupon" 409), db)) ∧
    (∀ c, findCoupon db cn = some c → findClaim db u cn = none →
      (claimCount db cn : Int) ≥ c.amount →
      claimCoupon db u cn none =
        (some (.claimError "Coupon stock exhausted" 400), db)) ∧
    (∀ c, findCoupon db cn = some c → findClaim db u cn = none →
      (claimCount db cn : Int) < c.amount →
      claimCoupon db u cn none =
        (none, { db with claims := db.claims ++ [⟨u, cn⟩] })) :=
  ⟨fun h => claimCoupon_coupon_absent db u cn none h,
   fun c cl hc hcl => claimCoupon_already_claimed db u cn none c hc cl hcl,
   fun c hc hcl hs => claimCoupon_exhausted db u cn none c hc hcl hs,
   fun c hc hcl hs => claimCoupon_success db u cn c hc hcl hs⟩

/-- Witness for C2: coupon C has stock 1 and alice has already claimed it,
so the coupon is exhausted — yet alice's repeat attempt gets
AlreadyClaimed (409), not StockExhausted. -/
theorem C2_witness :
    claimCoupon ⟨[⟨"C", 1⟩], [⟨"alice", "C"⟩]⟩ "alice" "C" none =
      (some (.claimError "User has already claimed this coupon" 409),
       ⟨[⟨"C", 1⟩], [⟨"alice", "C"⟩]⟩) :=
  (C2_claim_decision_order ⟨[⟨"C", 1⟩], [⟨"alice", "C"⟩]⟩ "alice" "C").2.1
    ⟨"C", 1⟩ ⟨"alice", "C"⟩ (by decide) (by decide)

/-- C3: when the Claim insert fails with a uniqueness-constraint
violation, `ClaimCoupon` answers exactly 409 "User has already claimed
this coupon" — never a generic or internal failure, never success — and
the state is unchanged. -/
theorem C3_unique_violation_reported_as_conflict (db : DB) (u cn : String)
    (e : GoErr) (c : Coupon) (huniq : isUniqueConstraintError e = true)
    (hc : findCoupon db cn = some c) (hcl : findClaim db u cn = none)
    (hstock : (claimCount db cn : Int) < c.amount) :
    claimCouponHandler db u cn (some e) =
      (⟨409, "User has already claimed this coupon"⟩, db) := by
  show (claimCouponRespond (claimCoupon db u cn (some e)).1,
    (claimCoupon db u cn (some e)).2) = _
  rw [claimCoupon_insert_fault db u cn c e hc hcl hstock]
  simp [claimCouponRespond, huniq]

/-- Witness for C3: a PostgreSQL 23505 error on the insert (a concurrent
duplicate of bob's claim) is answered 409 with the coupon still having
stock. -/
theorem C3_witness :
    claimCouponHandler ⟨[⟨"C", 1⟩], []⟩ "bob" "C"
      (some (.pqError "23505" "duplicate key value violates unique constraint")) =
      (⟨409, "User has already claimed this coupon"⟩, ⟨[⟨"C", 1⟩], []⟩) :=
  C3_unique_violation_reported_as_conflict ⟨[⟨"C", 1⟩], []⟩ "bob" "C"
    (.pqError "23505" "duplicate key value violates unique constraint")
    ⟨"C", 1⟩ (by decide) (by decide) (by decide) (by decide)

/-- C4: the compound key (user_id, coupon_name) stays unique across any
interleaving of any number of concurrent `ClaimCoupon` transactions: if
the committed claims are key-unique initially, they are key-unique after
every schedule — the unique index rejects the second insert of a key, so
no two Claims for the same pair ever coexist. -/
theorem C4_at_most_one_claim_per_pair (s : Sys) (sched : List Nat)
    (h : ClaimsKeyUnique s.db) : ClaimsKeyUnique (run s sched).db :=
  run_preserves_unique s sched h

/-- Witness for C4: two fully interleaved claims by the same user for
DOUBLE_DIP keep the claim set key-unique. -/
theorem C4_witness :
    ClaimsKeyUnique doubleDipInit.db ∧
    ClaimsKeyUnique (run doubleDipInit [0, 1, 0, 1, 0, 1, 0, 1]).db :=
  ⟨by decide,
   C4_at_most_one_claim_per_pair doubleDipInit [0, 1, 0, 1, 0, 1, 0, 1]
     (by decide)⟩

/-- C5: the claim says CreateCoupon accepts every unused non-empty name
with total_stock ≥ 0, including 0. The code refuses total_stock = 0: the
binding tag `required` on Amount treats the integer 0 as a missing field
(despite the accompanying `min=0`), so the request below — unused
non-empty name, stock 0 — is rejected with 400 and no Coupon is
inserted. -/
theorem C5_zero_stock_request_rejected :
    createCoupon ⟨[], []⟩ "ZERO_STOCK" 0 none =
      (⟨400, "binding: validation failed"⟩, ⟨[], []⟩) ∧
    createCouponBindingOk "ZERO_STOCK" 0 = false ∧
    findCoupon ⟨[], []⟩ "ZERO_STOCK" = none ∧
    "ZERO_STOCK" ≠ "" ∧ (0 : Int) ≥ 0 := by
  decide

/-- C6 counterexample: the claim says the claimant list is ordered by
claim creation time, but the code's `Find` issues no ORDER BY, so the
store may return the rows in any order. Coupon P has claims created as
u1 then u2; the reversed row order is a store-permitted `FindResult`,
and on it `GetCouponDetails` reports claimed_by = ["u2", "u1"], which is
not the creation order of the claims table. -/
theorem C6_counterexample_find_order_not_guaranteed :
    FindResult ⟨[⟨"P", 2⟩], [⟨"u1", "P"⟩, ⟨"u2", "P"⟩]⟩ "P"
      [⟨"u2", "P"⟩, ⟨"u1", "P"⟩] ∧
    getCouponDetails ⟨[⟨"P", 2⟩], [⟨"u1", "P"⟩, ⟨"u2", "P"⟩]⟩ "P"
      [⟨"u2", "P"⟩, ⟨"u1", "P"⟩] =
      .ok ⟨"P", 2, 0, GoSlice.mk ["u2", "u1"]⟩ ∧
    (["u2", "u1"] : List String) ≠
      (⟨[⟨"P", 2⟩], [⟨"u1", "P"⟩, ⟨"u2", "P"⟩]⟩ : DB).claims.map Claim.userID := by
  decide

/-- C6 amended: `GetCouponDetails` on an absent name answers 404 "Coupon
not found"; on an existing coupon it reports the coupon's stock, a claim
count equal to the coupon's committed claims, remaining = max 0 (stock −
count), and the claimant ids of the coupon's claims in whatever order
the store returned the rows — the query has no ORDER BY, so creation
order is not guaranteed. -/
theorem C6_amended_status_report (db : DB) (cn : String)
    (found : List Claim) (hf : FindResult db cn found) :
    (findCoupon db cn = none →
      getCouponDetails db cn found = .errResp ⟨404, "Coupon not found"⟩) ∧
    (∀ c, findCoupon db cn = some c →
      found.length = claimCount db cn ∧
      getCouponDetails db cn found = .ok ⟨c.name, c.amount,
        max 0 (c.amount - (claimCount db cn : Int)),
        GoSlice.mk (found.map Claim.userID)⟩) := by
  constructor
  · intro h
    simp [getCouponDetails, h]
  · intro c hc
    have hlen : found.length = claimCount db cn := hf.length_eq
    refine ⟨hlen, ?_⟩
    rw [getCouponDetails_found db cn found c hc, hlen]

/-- Witness for the amended C6: coupon Q with stock 3 and two claims,
returned by the store in reverse order, reports remaining 1 and the two
claimants in the returned order. -/
theorem C6_amended_witness :
    getCouponDetails ⟨[⟨"Q", 3⟩], [⟨"a", "Q"⟩, ⟨"b", "Q"⟩]⟩ "Q"
      [⟨"b", "Q"⟩, ⟨"a", "Q"⟩] =
      .ok ⟨"Q", 3, 1, GoSlice.mk ["b", "a"]⟩ :=
  (((C6_amended_status_report ⟨[⟨"Q", 3⟩], [⟨"a", "Q"⟩, ⟨"b", "Q"⟩]⟩ "Q"
      [⟨"b", "Q"⟩, ⟨"a", "Q"⟩] (by decide)).2 ⟨"Q", 3⟩ (by decide)).2).trans
    (by decide)

/-- C7: whenever the `ClaimCoupon` handler answers anything but success,
the stored state is exactly what it was before the attempt (the
transaction rolls back); in particular a claim against a nonexistent
coupon answers 404 and creates no Claim. -/
theorem C7_failure_changes_nothing (db : DB) (u cn : String)
    (fault : Option GoErr) :
    ((claimCouponHandler db u cn fault).1.status ≠ 200 →
      (claimCouponHandler db u cn fault).2 = db) ∧
    (findCoupon db cn = none →
      claimCouponHandler db u cn fault = (⟨404, "Coupon not found"⟩, db)) := by
  constructor
  · intro hne
    cases hoe : (claimCoupon db u cn fault).1 with
    | none =>
      exfalso
      apply hne
      show (claimCouponRespond (claimCoupon db u cn fault).1).status = 200
      rw [hoe]
      rfl
    | some e => exact claimCoupon_failed_state db u cn fault e hoe
  · intro h
    show (claimCouponRespond (claimCoupon db u cn fault).1,
      (claimCoupon db u cn fault).2) = _
    rw [claimCoupon_coupon_absent db u cn fault h]
    rfl

/-- Witness for C7: claiming the nonexistent coupon GHOST answers 404 and
leaves the database unchanged. -/
theorem C7_witness :
    claimCouponHandler ⟨[⟨"A", 5⟩], []⟩ "u" "GHOST" none =
      (⟨404, "Coupon not found"⟩, ⟨[⟨"A", 5⟩], []⟩) :=
  (C7_failure_changes_nothing ⟨[⟨"A", 5⟩], []⟩ "u" "GHOST" none).2 (by decide)

/-- C8 counterexample: the claim says every unrecognized store failure is
surfaced as an internal server error in every operation, including
CreateCoupon. But `CreateCoupon` maps every `db.Create` error — here an
infrastructure failure that is no uniqueness violation — to 400 Bad
Request carrying the raw driver message, the same status it gives the
business outcomes InvalidInput and DuplicateCoupon, not 500. -/
theorem C8_counterexample_create_store_failure_not_500 :
    createCoupon ⟨[], []⟩ "PROMO" 5 (some (.otherErr "connection refused")) =
      (⟨400, "Failed to create coupon: connection refused"⟩, ⟨[], []⟩) ∧
    isUniqueConstraintError (.otherErr "connection refused") = false ∧
    (400 : Nat) ≠ 500 := by
  decide

/-- C8 amended: in `ClaimCoupon`, a store failure on the insert that is
not a uniqueness violation is surfaced as an opaque 500 internal server
error — never success, never a business outcome — with the state rolled
back; `CreateCoupon`, by contrast, maps every store failure to 400. -/
theorem C8_amended_claim_unrecognized_failure_is_500 (db : DB)
    (u cn : String) (e : GoErr) (c : Coupon)
    (hnu : isUniqueConstraintError e = false)
    (hc : findCoupon db cn = some c) (hcl : findClaim db u cn = none)
    (hstock : (claimCount db cn : Int) < c.amount) :
    claimCouponHandler db u cn (some e) =
      (⟨500, "Failed to claim coupon: " ++ e.message⟩, db) := by
  show (claimCouponRespond (claimCoupon db u cn (some e)).1,
    (claimCoupon db u cn (some e)).2) = _
  rw [claimCoupon_insert_fault db u cn c e hc hcl hstock]
  simp [claimCouponRespond, hnu]

/-- Witness for the amended C8: a dropped connection during bob's insert
is answered 500 with the wrapped message and no state change. -/
theorem C8_amended_witness :
    claimCouponHandler ⟨[⟨"C", 1⟩], []⟩ "bob" "C"
      (some (.otherErr "connection reset by peer")) =
      (⟨500, "Failed to claim coupon: connection reset by peer"⟩,
       ⟨[⟨"C", 1⟩], []⟩) :=
  C8_amended_claim_unrecognized_failure_is_500 ⟨[⟨"C", 1⟩], []⟩ "bob" "C"
    (.otherErr "connection reset by peer") ⟨"C", 1⟩ (by decide) (by decide)
    (by decide) (by decide)

/-- C9: no `ClaimCoupon` execution ever writes the coupons table: the
sequential handler leaves `coupons` untouched whatever its outcome and
can only leave `claims` as-is or extend it by the one attempted claim;
and every interleaving of concurrent claim transactions preserves the
coupons table as well. -/
theorem C9_claim_never_writes_coupons (db : DB) (u cn : String)
    (fault : Option GoErr) (s : Sys) (sched : List Nat) :
    (claimCouponHandler db u cn fault).2.coupons = db.coupons ∧
    ((claimCouponHandler db u cn fault).2.claims = db.claims ∨
      (claimCouponHandler db u cn fault).2.claims = db.claims ++ [⟨u, cn⟩]) ∧
    (run s sched).db.coupons = s.db.coupons := by
  refine ⟨?_, ?_, run_preserves_coupons s sched⟩
  · show (claimCoupon db u cn fault).2.coupons = db.coupons
    rcases claimCoupon_snd_cases db u cn fault with h | h <;> rw [h]
  · rcases claimCoupon_snd_cases db u cn fault with h | h
    · left
      show (claimCoupon db u cn fault).2.claims = db.claims
      rw [h]
    · right
      show (claimCoupon db u cn fault).2.claims = db.claims ++ [⟨u, cn⟩]
      rw [h]

/-- C10: an existing coupon with zero claims is reported — whatever row
list the store hands back, necessarily empty — with `claimed_by` the
non-nil empty slice (gin serializes it as `[]`, not `null`) and
`remaining_amount` equal to the full stock. -/
theorem C10_zero_claims_empty_list (db : DB) (cn : String)
    (found : List Claim) (c : Coupon) (hc : findCoupon db cn = some c)
    (hf : FindResult db cn found) (hzero : claimCount db cn = 0)
    (hamt : 0 ≤ c.amount) :
    getCouponDetails db cn found =
      .ok ⟨c.name, c.amount, c.amount, GoSlice.mk []⟩ ∧
    GoSlice.mk ([] : List String) ≠ GoSlice.nilSlice := by
  refine ⟨?_, by simp⟩
  have hnil : found = [] := by
    have hlen : found.length = 0 := hf.length_eq.trans hzero
    exact List.length_eq_zero.mp hlen
  subst hnil
  rw [getCouponDetails_found db cn [] c hc]
  simp [max_eq_right hamt]

/-- Witness for C10: coupon NEW with stock 7 and no claims of its own
(the only claim is for another coupon) reports remaining 7 and the
non-nil empty claimant list. -/
theorem C10_witness :
    getCouponDetails ⟨[⟨"NEW", 7⟩], [⟨"x", "OTHER"⟩]⟩ "NEW" [] =
      .ok ⟨"NEW", 7, 7, GoSlice.mk []⟩ ∧
    GoSlice.mk ([] : List String) ≠ GoSlice.nilSlice :=
  C10_zero_claims_empty_list ⟨[⟨"NEW", 7⟩], [⟨"x", "OTHER"⟩]⟩ "NEW" []
    ⟨"NEW", 7⟩ (by decide) (by decide) (by decide) (by decide)

end FlashSale
